import Mathlib

/-!
Verification of the mermaid-checker core of `neo4j-cw-manager`.

The development shallowly embeds the Python modules
`tools/mermaid_checker/{parser,checker,code_checker,file_checker,block_lister,constants}.py`.

Python strings are modelled as `List Char` (`PyStr`), with faithful
executable models of `str.strip()`, `str.split('\n')`, `'\n'.join(...)` and
`str.startswith(...)`.  The external `mmdc` subprocess is modelled by a
`ToolBehavior` parameter describing the observable outcome of the one child
process a validation call spawns (completion with an exit code and captured
streams, timeout, or a missing binary), together with an explicit trace of
process-management events.  Python exceptions are modelled as explicit sum
types (`ValidateResult`, `FileRead`).
-/

abbrev PyStr := List Char

/-- ASCII whitespace as recognised by Python's `str.strip` / regex `\s`:
space, tab, newline, carriage return, vertical tab, form feed. -/
def isPySpace (c : Char) : Bool :=
  c = ' ' || c = '\t' || c = '\n' || c = '\r' || c = '\x0b' || c = '\x0c'

/-- Model of Python `str.lstrip()`. -/
def pyLStrip (s : PyStr) : PyStr := s.dropWhile isPySpace

/-- Model of Python `str.rstrip()`. -/
def pyRStrip (s : PyStr) : PyStr := (s.reverse.dropWhile isPySpace).reverse

/-- Model of Python `str.strip()` (both ends). -/
def pyStrip (s : PyStr) : PyStr := pyRStrip (pyLStrip s)

/-- Model of Python `s.startswith(pre)`. -/
def pyStartsWith (s pre : PyStr) : Bool := pre.isPrefixOf s

/-- Model of Python `s.split('\n')`: every `'\n'` is a separator and empty
pieces are kept, so the result is always non-empty. -/
def pySplitNl : PyStr → List PyStr
  | [] => [[]]
  | c :: cs =>
    if c = '\n' then [] :: pySplitNl cs
    else (c :: (pySplitNl cs).headI) :: (pySplitNl cs).tail

/-- Model of Python `'\n'.join(pieces)`. -/
def pyJoinNl : List PyStr → PyStr
  | [] => []
  | [x] => x
  | x :: y :: t => x ++ '\n' :: pyJoinNl (y :: t)

/-- Decimal rendering of a natural number, as used by Python f-strings. -/
def natChars (n : Nat) : PyStr := (Nat.repr n).data

/-- Python f-string rendering of an `Optional[str]`: `None` prints as
the four characters `None`. -/
def pyOptRepr : Option PyStr → PyStr
  | some t => t
  | none => "None".data

/- ===== parser.py : constants and data model ===== -/

/-- parser.py: `MERMAID_FENCE_START = '```mermaid'`. -/
def MERMAID_FENCE_START : PyStr := "```mermaid".data

/-- parser.py: `CODE_FENCE_END = '```'`. -/
def CODE_FENCE_END : PyStr := "```".data

/-- parser.py: the `DIAGRAM_TYPES` keyword table, in dict insertion order
(Python dicts iterate in insertion order). -/
def DIAGRAM_TYPES : List (PyStr × PyStr) :=
  [("flowchart".data, "flowchart".data),
   ("graph".data, "flowchart".data),
   ("sequenceDiagram".data, "sequenceDiagram".data),
   ("classDiagram".data, "classDiagram".data),
   ("stateDiagram".data, "stateDiagram".data),
   ("stateDiagram-v2".data, "stateDiagram".data),
   ("erDiagram".data, "erDiagram".data),
   ("gantt".data, "gantt".data),
   ("pie".data, "pie".data),
   ("gitGraph".data, "gitGraph".data)]

/-- models.py: `MermaidBlock`. -/
structure MermaidBlock where
  index : Nat
  start_line : Nat
  end_line : Nat
  code : PyStr
  diagram_type : Option PyStr
deriving DecidableEq, Repr, Inhabited

/-- models.py: `ValidationResult`. -/
structure ValidationResult where
  valid : Bool
  diagram_type : Option PyStr
  error_line : Option Nat
  error_message : Option PyStr
deriving DecidableEq, Repr

/- ===== parser.py : diagram-type detection and line scanning ===== -/

/-- Loop body of `_detect_diagram_type` (parser.py lines 165-203; the copy in
checker.py lines 130-170 has identical logic): walk the lines, and at the
first line whose stripped form is non-empty, scan `DIAGRAM_TYPES` in order
for a keyword that is a prefix of the stripped line. -/
def detectLines : List PyStr → Option PyStr
  | [] => none
  | l :: ls =>
    let t := pyStrip l
    if t = [] then detectLines ls
    else (DIAGRAM_TYPES.find? (fun p => pyStartsWith t p.1)).map (fun p => p.2)

/-- parser.py / checker.py `_detect_diagram_type`. -/
def detect_diagram_type (code : PyStr) : Option PyStr :=
  detectLines (pySplitNl code)

/-- The mutable local state of the `_parse_lines` loop (parser.py 102-162). -/
structure ParseState where
  blocks : List MermaidBlock
  in_mermaid_block : Bool
  block_start_line : Nat
  block_code_lines : List PyStr
  block_index : Nat
deriving DecidableEq, Repr

/-- One iteration of the `_parse_lines` loop on the line with 1-based number
`line_num`.  Note the opening-fence test comes first and is checked even
while inside a block, exactly as in the Python `if`/`elif` chain. -/
def parseStep (line_num : Nat) (line : PyStr) (st : ParseState) : ParseState :=
  let stripped_line := pyStrip line
  if pyStartsWith stripped_line MERMAID_FENCE_START then
    { st with in_mermaid_block := true, block_start_line := line_num,
              block_code_lines := [] }
  else if st.in_mermaid_block then
    if pyStartsWith stripped_line CODE_FENCE_END then
      let code := pyJoinNl st.block_code_lines
      { st with
        blocks := st.blocks ++
          [⟨st.block_index, st.block_start_line, line_num, code,
            detect_diagram_type code⟩],
        in_mermaid_block := false,
        block_index := st.block_index + 1 }
    else { st with block_code_lines := st.block_code_lines ++ [line] }
  else st

/-- Run the scanner from line number `n` over the remaining lines. -/
def runScanner : Nat → List PyStr → ParseState → ParseState
  | _, [], st => st
  | n, l :: ls, st => runScanner (n + 1) ls (parseStep n l st)

/-- The initial loop state of `_parse_lines`. -/
def initState : ParseState := ⟨[], false, 0, [], 1⟩

/-- parser.py `_parse_lines`: the blocks accumulated by a full scan. -/
def parse_lines (lines : List PyStr) : List MermaidBlock :=
  (runScanner 1 lines initState).blocks

/-- parser.py `extract_mermaid_blocks` applied to already-read document text:
split on `'\n'` and scan. -/
def extract_blocks (content : PyStr) : List MermaidBlock :=
  parse_lines (pySplitNl content)

/- ===== checker.py : constants, error parsing, validation ===== -/

/-- checker.py: `ERROR_CODE_REQUIRED = "Code is required"` (the `ValueError`
message; distinct from the report string in constants.py). -/
def ERROR_CODE_REQUIRED : PyStr := "Code is required".data

/-- checker.py: `ERROR_CLI_NOT_FOUND`. -/
def ERROR_CLI_NOT_FOUND : PyStr :=
  "Mermaid CLI not found. Please install @mermaid-js/mermaid-cli".data

/-- checker.py: `ERROR_VALIDATION_FAILED = "Validation failed"`. -/
def ERROR_VALIDATION_FAILED : PyStr := "Validation failed".data

/-- checker.py: `DEFAULT_TIMEOUT = 30`. -/
def DEFAULT_TIMEOUT : Nat := 30

/-- checker.py: `ERROR_TIMEOUT_TEMPLATE.format(timeout=timeout)`. -/
def timeoutMessage (timeout : Nat) : PyStr :=
  "Validation timed out after ".data ++ natChars timeout ++ "s".data

/-- Value of a maximal leading decimal-digit run, model of the regex group
`(\d+)` followed by `int(...)`. -/
def digitRunVal (acc : Nat) : PyStr → Nat
  | [] => acc
  | c :: cs => if c.isDigit then digitRunVal (acc * 10 + (c.toNat - 48)) cs else acc

/-- Attempt to match the regex `line\s+(\d+)` (case-insensitive) anchored at
the start of the character list, returning the captured number. -/
def matchLineAt : PyStr → Option Nat
  | c1 :: c2 :: c3 :: c4 :: rest =>
    if c1.toLower = 'l' && c2.toLower = 'i' && c3.toLower = 'n' && c4.toLower = 'e' then
      match rest with
      | [] => none
      | w :: ws =>
        if isPySpace w then
          match ws.dropWhile isPySpace with
          | [] => none
          | d :: ds => if d.isDigit then some (digitRunVal (d.toNat - 48) ds) else none
        else none
    else none
  | _ => none

/-- Model of `LINE_NUMBER_PATTERN.search(stderr)`: leftmost match of
`line\s+(\d+)` (case-insensitive), returning the captured decimal value.
Since `\s` and `\d` are disjoint character classes the greedy scan needs no
backtracking. -/
def searchLineNum : PyStr → Option Nat
  | [] => none
  | c :: cs =>
    match matchLineAt (c :: cs) with
    | some n => some n
    | none => searchLineNum cs

/-- The stripped non-blank lines of a text: `[line.strip() for line in
txt.split('\n') if line.strip()]`. -/
def nonBlankTrimmedLines (txt : PyStr) : List PyStr :=
  ((pySplitNl txt).map pyStrip).filter (fun l => !l.isEmpty)

/-- checker.py `_parse_cli_error` (lines 270-315). -/
def parse_cli_error (stderrText : PyStr) : Option Nat × PyStr :=
  let error_line := searchLineNum stderrText
  let stripped := pyStrip stderrText
  let error_message :=
    if stripped = [] then ERROR_VALIDATION_FAILED
    else
      let ls := nonBlankTrimmedLines stripped
      let first := match ls with
        | l :: _ => l
        | [] => stripped
      if first = [] then ERROR_VALIDATION_FAILED else first
  (error_line, error_message)

/-- Observable behaviour of the external `mmdc` child process during one
validation call: it either runs to completion (with `process.returncode`,
which is `None ⇒ 1`-defaulted by `_run_mmdc`, and the two captured streams),
or the caller-supplied deadline elapses first, or the binary does not exist
so the process cannot be spawned at all. -/
inductive ToolBehavior where
  | completed (returncode : Option Int) (stdoutText stderrText : PyStr)
  | timedOut
  | notFound
deriving DecidableEq, Repr

/-- Process-management actions performed by `_run_mmdc`, recorded as a trace
so that the kill/reap discipline of the timeout branch is visible. -/
inductive ProcEvent where
  | spawned
  | exited
  | killed
  | waited
deriving DecidableEq, Repr

/-- The two exceptions `_run_mmdc` can raise into `validate_code`. -/
inductive RunFault where
  | toolNotFound
  | timedOut
deriving DecidableEq, Repr

/-- Result of checker.py `_run_mmdc` (lines 204-268): either the triple
`(return_code, stdout, stderr)` with `return_code = returncode or-else 1`,
or a raised `FileNotFoundError` / `asyncio.TimeoutError`; plus the trace of
process events.  In the timeout branch the child is killed and then waited
for before the exception is re-raised. -/
def run_mmdc (tool : ToolBehavior) : List ProcEvent × Except RunFault (Int × PyStr × PyStr) :=
  match tool with
  | .notFound => ([], .error .toolNotFound)
  | .timedOut => ([.spawned, .killed, .waited], .error .timedOut)
  | .completed rc out err => ([.spawned, .exited], .ok (rc.getD 1, out, err))

/-- Outcome of checker.py `validate_code`: either the `ValueError` raised on
empty input, or a returned `ValidationResult`. -/
inductive ValidateResult where
  | raised (msg : PyStr)
  | ok (result : ValidationResult)
deriving DecidableEq, Repr

/-- checker.py `validate_code` (lines 40-135), with the subprocess modelled
by a `ToolBehavior`.  Temporary-file handling is pure resource management
with no influence on the returned value and is not modelled. -/
def validate_code (code : PyStr) (timeout : Nat) (tool : ToolBehavior) : ValidateResult :=
  if code = [] ∨ pyStrip code = [] then .raised ERROR_CODE_REQUIRED
  else
    let diagram_type := detect_diagram_type code
    match (run_mmdc tool).2 with
    | .ok (return_code, _, stderrText) =>
      if return_code = 0 then
        .ok ⟨true, diagram_type, none, none⟩
      else
        let pe := parse_cli_error stderrText
        .ok ⟨false, diagram_type, pe.1, some pe.2⟩
    | .error .toolNotFound => .ok ⟨false, none, none, some ERROR_CLI_NOT_FOUND⟩
    | .error .timedOut => .ok ⟨false, none, none, some (timeoutMessage timeout)⟩

/- ===== constants.py ===== -/

/-- constants.py: `ERROR_CODE_REQUIRED = "Error: Code is required"` (the
report string returned by the entry points). -/
def CONST_ERROR_CODE_REQUIRED : PyStr := "Error: Code is required".data

/-- constants.py: `ERROR_FILE_NOT_FOUND.format(path=...)`. -/
def ERROR_FILE_NOT_FOUND (path : PyStr) : PyStr :=
  "Error: File not found: ".data ++ path

/-- constants.py: `ERROR_FILE_READ.format(error=...)`. -/
def ERROR_FILE_READ (err : PyStr) : PyStr :=
  "Error: Failed to read file: ".data ++ err

/-- constants.py: `MSG_NO_BLOCKS`. -/
def MSG_NO_BLOCKS : PyStr := "No Mermaid blocks found in this file.".data

/-- constants.py: `MSG_ALL_VALID`. -/
def MSG_ALL_VALID : PyStr := "All Mermaid blocks are syntactically correct.".data

/- ===== code_checker.py ===== -/

/-- code_checker.py `check_mermaid_code` (lines 9-37).  The argument is
`Optional[str]`; the single external-tool interaction is the behaviour
parameter. -/
def check_mermaid_code (code : Option PyStr) (tool : ToolBehavior) : PyStr :=
  match code with
  | none => CONST_ERROR_CODE_REQUIRED
  | some c =>
    if pyStrip c = [] then CONST_ERROR_CODE_REQUIRED
    else
      match validate_code c DEFAULT_TIMEOUT tool with
      | .raised _ => CONST_ERROR_CODE_REQUIRED
      | .ok result =>
        if result.valid then
          "Valid: true\nDiagram type: ".data ++ pyOptRepr result.diagram_type
        else
          match result.error_line with
          | some n =>
            "Valid: false\nError at line ".data ++ natChars n ++ ": ".data ++
              pyOptRepr result.error_message
          | none => "Valid: false\nError: ".data ++ pyOptRepr result.error_message

/- ===== file_checker.py ===== -/

/-- Outcome of reading the backing Markdown document in
`extract_mermaid_blocks`: the decoded text, a `FileNotFoundError`, or an
`IOError`/`OSError` with its message (decode failures are re-raised as
`IOError`). -/
inductive FileRead where
  | ok (content : PyStr)
  | notFound
  | unreadable (err : PyStr)
deriving DecidableEq, Repr

/-- file_checker.py `_format_block_error`: note Python's
`result.error_message or "Unknown error"` treats both `None` and the empty
string as missing. -/
def format_block_error (b : MermaidBlock) (result : ValidationResult) : PyStr :=
  let msg := match result.error_message with
    | some m => if m = [] then "Unknown error".data else m
    | none => "Unknown error".data
  "Error in block ".data ++ natChars b.index ++ " (line ".data ++
    natChars b.start_line ++ "):\n  ".data ++ msg

/-- The fixed entry appended when `validate_code` raises on an empty block
(file_checker.py lines 51-56). -/
def emptyBlockEntry (b : MermaidBlock) : PyStr :=
  "Error in block ".data ++ natChars b.index ++ " (line ".data ++
    natChars b.start_line ++ "):\n  Empty mermaid block".data

/-- The per-block loop of `check_mermaid_file` (lines 40-56), accumulating
`valid_count`, `invalid_count` and `error_details` left to right.  The
behaviour of the external tool may depend on the code fed to it. -/
def checkBlocksLoop (tool : PyStr → ToolBehavior) :
    List MermaidBlock → Nat → Nat → List PyStr → Nat × Nat × List PyStr
  | [], v, i, det => (v, i, det)
  | b :: bs, v, i, det =>
    match validate_code b.code DEFAULT_TIMEOUT (tool b.code) with
    | .ok result =>
      if result.valid then checkBlocksLoop tool bs (v + 1) i det
      else checkBlocksLoop tool bs v (i + 1) (det ++ [format_block_error b result])
    | .raised _ => checkBlocksLoop tool bs v (i + 1) (det ++ [emptyBlockEntry b])

/-- file_checker.py `_format_file_result`. -/
def format_file_result (path : PyStr) (total valid_count invalid_count : Nat)
    (error_details : List PyStr) : PyStr :=
  pyJoinNl
    (["Checked: ".data ++ path,
      "Total blocks: ".data ++ natChars total,
      "Valid: ".data ++ natChars valid_count,
      "Invalid: ".data ++ natChars invalid_count,
      []] ++
     (if invalid_count = 0 then [MSG_ALL_VALID] else error_details))

/-- file_checker.py `check_mermaid_file` (lines 16-58). -/
def check_mermaid_file (path : PyStr) (fs : FileRead) (tool : PyStr → ToolBehavior) : PyStr :=
  match fs with
  | .notFound => ERROR_FILE_NOT_FOUND path
  | .unreadable e => ERROR_FILE_READ e
  | .ok content =>
    let blocks := extract_blocks content
    if blocks.isEmpty then
      "Checked: ".data ++ path ++ "\nTotal blocks: 0\n\n".data ++ MSG_NO_BLOCKS
    else
      let r := checkBlocksLoop tool blocks 0 0 []
      format_file_result path blocks.length r.1 r.2.1 r.2.2

/- ===== block_lister.py ===== -/

/-- The per-block listing lines of `_format_list_result` (a header, a type
line with Python's falsy-`or` defaulting, a content-line count where the
empty string counts zero lines, and a blank separator). -/
def blockListingLines : List MermaidBlock → List PyStr
  | [] => []
  | b :: bs =>
    ("Block ".data ++ natChars b.index ++ " (line ".data ++
       natChars b.start_line ++ "-".data ++ natChars b.end_line ++ "):".data) ::
    ("  Type: ".data ++
       (match b.diagram_type with
        | some t => if t = [] then "unknown".data else t
        | none => "unknown".data)) ::
    ("  Lines: ".data ++
       natChars (if b.code = [] then 0 else (pySplitNl b.code).length)) ::
    [] :: blockListingLines bs

/-- block_lister.py: `if lines and lines[-1] == "": lines.pop()`. -/
def dropTrailingBlank (ls : List PyStr) : List PyStr :=
  match ls.getLast? with
  | some l => if l = [] then ls.dropLast else ls
  | none => ls

/-- block_lister.py `_format_list_result`. -/
def format_list_result (path : PyStr) (blocks : List MermaidBlock) : PyStr :=
  pyJoinNl (dropTrailingBlank
    (["File: ".data ++ path,
      "Total blocks: ".data ++ natChars blocks.length,
      []] ++ blockListingLines blocks))

/-- block_lister.py `list_mermaid_blocks` (lines 10-30). -/
def list_mermaid_blocks (path : PyStr) (fs : FileRead) : PyStr :=
  match fs with
  | .notFound => ERROR_FILE_NOT_FOUND path
  | .unreadable e => ERROR_FILE_READ e
  | .ok content =>
    let blocks := extract_blocks content
    if blocks.isEmpty then
      "File: ".data ++ path ++ "\nTotal blocks: 0\n\n".data ++ MSG_NO_BLOCKS
    else format_list_result path blocks

/- ===== Specification-side definitions ===== -/

/-- Spec 4.1: the first non-empty trimmed line of a sequence of lines. -/
def firstContentLine : List PyStr → Option PyStr
  | [] => none
  | l :: ls => if pyStrip l = [] then firstContentLine ls else some (pyStrip l)

/-- Spec 3: blocks carry consecutive 1-based indices starting at `k`. -/
def IndexedFrom : Nat → List MermaidBlock → Prop
  | _, [] => True
  | k, b :: bs => b.index = k ∧ IndexedFrom (k + 1) bs

/-- Spec 3: each block has `start_line < end_line`, line ranges are pairwise
disjoint and in document order, and every `start_line` exceeds the bound. -/
def ChainFrom : Nat → List MermaidBlock → Prop
  | _, [] => True
  | lb, b :: bs => lb < b.start_line ∧ b.start_line < b.end_line ∧ ChainFrom b.end_line bs

/-- The loop invariant of the `_parse_lines` scanner, at the point where the
line numbered `n` is about to be processed: indices are consecutive from 1
and agree with the count, emitted ranges are well-formed, ordered and
disjoint, all emitted blocks closed on earlier lines, and while inside a
block every emitted block closed before the pending block opened. -/
def ScanInv (n : Nat) (st : ParseState) : Prop :=
  1 ≤ n ∧
  st.block_index = st.blocks.length + 1 ∧
  IndexedFrom 1 st.blocks ∧
  ChainFrom 0 st.blocks ∧
  (∀ b ∈ st.blocks, b.end_line < n) ∧
  (st.in_mermaid_block = true →
    1 ≤ st.block_start_line ∧ st.block_start_line < n ∧
    ∀ b ∈ st.blocks, b.end_line < st.block_start_line)

/-- Map a function over only the last element of a list. -/
def mapLast (f : PyStr → PyStr) : List PyStr → List PyStr
  | [] => []
  | [a] => [f a]
  | a :: b :: t => a :: mapLast f (b :: t)

/- ===== Helper lemmas: index and chain structure ===== -/

theorem indexedFrom_append {xs : List MermaidBlock} {b : MermaidBlock} :
    ∀ {k : Nat}, IndexedFrom k xs → b.index = k + xs.length →
      IndexedFrom k (xs ++ [b]) := by
  induction xs with
  | nil =>
    intro k _ h2
    exact ⟨by simpa using h2, trivial⟩
  | cons a t ih =>
    intro k h1 h2
    refine ⟨h1.1, ih h1.2 ?_⟩
    simp only [List.length_cons] at h2
    omega

theorem chainFrom_append {xs : List MermaidBlock} {b : MermaidBlock} :
    ∀ {lb : Nat}, ChainFrom lb xs → (∀ x ∈ xs, x.end_line < b.start_line) →
      lb < b.start_line → b.start_line < b.end_line →
      ChainFrom lb (xs ++ [b]) := by
  induction xs with
  | nil => intro lb _ _ h3 h4; exact ⟨h3, h4, trivial⟩
  | cons a t ih =>
    intro lb h1 h2 _ h4
    exact ⟨h1.1, h1.2.1,
      ih h1.2.2 (fun x hx => h2 x (List.mem_cons_of_mem a hx))
        (h2 a (List.mem_cons_self a t)) h4⟩

theorem chainFrom_start_lt_end {xs : List MermaidBlock} :
    ∀ {lb : Nat}, ChainFrom lb xs → ∀ b ∈ xs, b.start_line < b.end_line := by
  induction xs with
  | nil => intro lb _ b hb; cases hb
  | cons a t ih =>
    intro lb h b hb
    rcases List.mem_cons.mp hb with rfl | hb
    · exact h.2.1
    · exact ih h.2.2 b hb

theorem chainFrom_lt_start {xs : List MermaidBlock} :
    ∀ {lb : Nat}, ChainFrom lb xs → ∀ b ∈ xs, lb < b.start_line := by
  induction xs with
  | nil => intro lb _ b hb; cases hb
  | cons a t ih =>
    intro lb h b hb
    obtain ⟨g1, g2, g3⟩ := h
    rcases List.mem_cons.mp hb with rfl | hb
    · exact g1
    · have := ih g3 b hb
      omega

theorem indexedFrom_get {xs : List MermaidBlock} :
    ∀ {k : Nat}, IndexedFrom k xs →
      ∀ i (hi : i < xs.length), (xs.get ⟨i, hi⟩).index = k + i := by
  induction xs with
  | nil => intro k _ i hi; simp at hi
  | cons a t ih =>
    intro k h i hi
    cases i with
    | zero => simpa using h.1
    | succ j =>
      have hj : j < t.length := by
        simp only [List.length_cons] at hi
        omega
      have h2 := ih h.2 j hj
      show (t.get ⟨j, hj⟩).index = k + (j + 1)
      rw [h2]
      omega

theorem chainFrom_pairwise {xs : List MermaidBlock} :
    ∀ {lb : Nat}, ChainFrom lb xs →
      ∀ i j (hi : i < xs.length) (hj : j < xs.length), i < j →
        (xs.get ⟨i, hi⟩).end_line < (xs.get ⟨j, hj⟩).start_line := by
  induction xs with
  | nil => intro lb _ i j hi; simp at hi
  | cons a t ih =>
    intro lb h i j hi hj hij
    obtain ⟨g1, g2, g3⟩ := h
    cases i with
    | zero =>
      cases j with
      | zero => omega
      | succ j' =>
        have hj' : j' < t.length := by
          simp only [List.length_cons] at hj
          omega
        have hmem : t.get ⟨j', hj'⟩ ∈ t := List.get_mem t j' hj'
        show a.end_line < (t.get ⟨j', hj'⟩).start_line
        exact chainFrom_lt_start g3 _ hmem
    | succ i' =>
      cases j with
      | zero => omega
      | succ j' =>
        have hi' : i' < t.length := by
          simp only [List.length_cons] at hi
          omega
        have hj' : j' < t.length := by
          simp only [List.length_cons] at hj
          omega
        show (t.get ⟨i', hi'⟩).end_line < (t.get ⟨j', hj'⟩).start_line
        exact ih g3 i' j' hi' hj' (by omega)

/- ===== The scanner preserves the invariant ===== -/

theorem scanInv_step (n : Nat) (line : PyStr) (st : ParseState)
    (h : ScanInv n st) : ScanInv (n + 1) (parseStep n line st) := by
  obtain ⟨hn, hidx, hif, hcf, hend, hin⟩ := h
  by_cases h1 : pyStartsWith (pyStrip line) MERMAID_FENCE_START = true
  · have e1 : parseStep n line st =
        { st with in_mermaid_block := true, block_start_line := n,
                  block_code_lines := [] } := by
      simp [parseStep, h1]
    rw [e1]
    simp only [ScanInv]
    refine ⟨by omega, hidx, hif, hcf,
      fun b hb => Nat.lt_succ_of_lt (hend b hb),
      fun _ => ⟨hn, by omega, hend⟩⟩
  · by_cases h2 : st.in_mermaid_block = true
    · by_cases h3 : pyStartsWith (pyStrip line) CODE_FENCE_END = true
      · obtain ⟨hbs1, hbs2, hbs3⟩ := hin h2
        have e1 : parseStep n line st =
            { st with
              blocks := st.blocks ++
                [⟨st.block_index, st.block_start_line, n,
                  pyJoinNl st.block_code_lines,
                  detect_diagram_type (pyJoinNl st.block_code_lines)⟩],
              in_mermaid_block := false,
              block_index := st.block_index + 1 } := by
          simp [parseStep, h1, h2, h3]
        rw [e1]
        simp only [ScanInv]
        refine ⟨by omega, ?_, ?_, ?_, ?_, ?_⟩
        · simp [List.length_append, hidx]
        · exact indexedFrom_append hif
            (show st.block_index = 1 + st.blocks.length by omega)
        · exact chainFrom_append hcf hbs3 (show 0 < st.block_start_line by omega) hbs2
        · intro b hb
          rcases List.mem_append.mp hb with hb | hb
          · exact Nat.lt_succ_of_lt (hend b hb)
          · simp only [List.mem_singleton] at hb
            subst hb
            simp
        · intro hfalse
          simp at hfalse
      · have e1 : parseStep n line st =
            { st with block_code_lines := st.block_code_lines ++ [line] } := by
          simp [parseStep, h1, h2, h3]
        rw [e1]
        simp only [ScanInv]
        refine ⟨by omega, hidx, hif, hcf,
          fun b hb => Nat.lt_succ_of_lt (hend b hb), ?_⟩
        intro hi
        obtain ⟨a1, a2, a3⟩ := hin hi
        exact ⟨a1, by omega, a3⟩
    · have e1 : parseStep n line st = st := by
        simp [parseStep, h1, h2]
      rw [e1]
      exact ⟨by omega, hidx, hif, hcf,
        fun b hb => Nat.lt_succ_of_lt (hend b hb),
        fun hi => absurd hi h2⟩

theorem scanInv_run (ls : List PyStr) :
    ∀ (n : Nat) (st : ParseState), ScanInv n st →
      ScanInv (n + ls.length) (runScanner n ls st) := by
  induction ls with
  | nil => intro n st h; simpa [runScanner] using h
  | cons l t ih =>
    intro n st h
    have := ih (n + 1) (parseStep n l st) (scanInv_step n l st h)
    have harith : n + (l :: t).length = (n + 1) + t.length := by
      simp [List.length_cons]; omega
    rw [harith]
    simpa [runScanner] using this

theorem scanInv_init : ScanInv 1 initState := by
  refine ⟨Nat.le_refl 1, rfl, trivial, trivial, ?_, ?_⟩
  · intro b hb; simp [initState] at hb
  · intro h; simp [initState] at h

theorem parse_lines_inv (lines : List PyStr) :
    ScanInv (1 + lines.length) (runScanner 1 lines initState) :=
  scanInv_run lines 1 initState scanInv_init

/- ===== C1 ===== -/

/-- C1: for every document text, the block sequence returned by extraction
satisfies: the i-th block (0-based position i) has `index` i+1 — so indices
run 1..N, strictly increasing with no gaps — every block has
`start_line < end_line`, and the `[start_line, end_line]` ranges of distinct
blocks are pairwise non-overlapping and appear in document order (an earlier
block's range ends strictly before a later block's range starts). -/
theorem extraction_block_invariants (lines : List PyStr) :
    (∀ i (hi : i < (parse_lines lines).length),
        ((parse_lines lines).get ⟨i, hi⟩).index = i + 1) ∧
    (∀ b ∈ parse_lines lines, b.start_line < b.end_line) ∧
    (∀ i j (hi : i < (parse_lines lines).length)
        (hj : j < (parse_lines lines).length), i < j →
        ((parse_lines lines).get ⟨i, hi⟩).end_line <
          ((parse_lines lines).get ⟨j, hj⟩).start_line) := by
  obtain ⟨-, -, hif, hcf, -, -⟩ := parse_lines_inv lines
  simp only [parse_lines]
  refine ⟨?_, ?_, ?_⟩
  · intro i hi
    have := indexedFrom_get hif i hi
    omega
  · exact chainFrom_start_lt_end hcf
  · exact chainFrom_pairwise hcf

/-- Witness for C1 on a concrete two-block document: the two blocks have
indices 1 and 2, well-formed ranges, and the first range ends before the
second starts. -/
theorem extraction_block_invariants_witness :
    ((parse_lines ["```mermaid".data, "a".data, "```".data, "x".data,
        "```mermaid".data, "b".data, "```".data]).get ⟨0, by decide⟩).index = 0 + 1 ∧
    ((parse_lines ["```mermaid".data, "a".data, "```".data, "x".data,
        "```mermaid".data, "b".data, "```".data]).get ⟨0, by decide⟩).end_line <
      ((parse_lines ["```mermaid".data, "a".data, "```".data, "x".data,
        "```mermaid".data, "b".data, "```".data]).get ⟨1, by decide⟩).start_line :=
  ⟨(extraction_block_invariants _).1 0 (by decide),
   (extraction_block_invariants _).2.2 0 1 (by decide) (by decide) (by decide)⟩

/- ===== C9 ===== -/

/-- C9: for every document whose text ends while the scanner is still in the
INSIDE state (an opening fence with no later closing fence), extraction
emits no block for the unterminated trailing region: every returned block
closed strictly before the dangling region's opening fence line, so the
sequence contains only the blocks closed before it. -/
theorem unterminated_trailing_block_dropped (lines : List PyStr)
    (h : (runScanner 1 lines initState).in_mermaid_block = true) :
    (parse_lines lines).all
      (fun b => decide
        (b.end_line < (runScanner 1 lines initState).block_start_line)) = true := by
  obtain ⟨-, -, -, -, -, hin⟩ := parse_lines_inv lines
  obtain ⟨-, -, h3⟩ := hin h
  rw [List.all_eq_true]
  intro b hb
  exact decide_eq_true (h3 b hb)

/-- Witness for C9: a document with one closed block followed by a dangling
opening fence ends INSIDE, extraction returns a non-empty sequence, and
every returned block closed before the dangling fence at line 4. -/
theorem unterminated_trailing_block_dropped_witness :
    parse_lines ["```mermaid".data, "a".data, "```".data,
        "```mermaid".data, "b".data] ≠ [] ∧
    (parse_lines ["```mermaid".data, "a".data, "```".data,
        "```mermaid".data, "b".data]).all
      (fun b => decide
        (b.end_line < (runScanner 1 ["```mermaid".data, "a".data, "```".data,
            "```mermaid".data, "b".data] initState).block_start_line)) = true :=
  ⟨by decide, unterminated_trailing_block_dropped _ (by decide)⟩

/- ===== C6 ===== -/

/-- Counterexample to C6 as stated.  The claim says that while the extractor
is INSIDE, the first line whose trimmed content starts with the bare closing
token `` ``` `` ends the current block regardless of the rest of that line's
content, setting `end_line` to that line's number and returning to OUTSIDE.
In the document below, the scanner is INSIDE after line 1, line 2 (a second
`` ```mermaid `` line) trim-starts with the closing token, yet the step on
line 2 leaves the scanner INSIDE and emits nothing: the opening-fence test
fires first and re-opens the block.  The whole document yields a single
block spanning lines 2-4, and no block ends at line 2. -/
theorem inside_close_prefix_counterexample :
    (runScanner 1 ["```mermaid".data] initState).in_mermaid_block = true ∧
    pyStartsWith (pyStrip "```mermaid".data) CODE_FENCE_END = true ∧
    (parseStep 2 "```mermaid".data
        (runScanner 1 ["```mermaid".data] initState)).in_mermaid_block = true ∧
    (parseStep 2 "```mermaid".data
        (runScanner 1 ["```mermaid".data] initState)).blocks = [] ∧
    parse_lines ["```mermaid".data, "```mermaid".data, "a".data, "```".data] =
      [⟨1, 2, 4, "a".data, none⟩] := by
  decide

/-- C6 amended: while the extractor is INSIDE, a line whose trimmed content
starts with the bare closing-fence token `` ``` `` but does not start with
the opening token `` ```mermaid `` ends the current block regardless of the
rest of that line's content — finalizing the accumulated lines joined with
newline as the block's code, setting `end_line` to that line's number, and
returning to OUTSIDE.  (A line whose trimmed content starts with
`` ```mermaid `` instead re-opens a new block, because the opening-fence
test precedes the closing-fence test.) -/
theorem inside_close_nonopen_terminates (n : Nat) (line : PyStr) (st : ParseState)
    (h1 : st.in_mermaid_block = true)
    (h2 : pyStartsWith (pyStrip line) CODE_FENCE_END = true)
    (h3 : pyStartsWith (pyStrip line) MERMAID_FENCE_START = false) :
    parseStep n line st =
      { st with
        blocks := st.blocks ++
          [⟨st.block_index, st.block_start_line, n,
            pyJoinNl st.block_code_lines,
            detect_diagram_type (pyJoinNl st.block_code_lines)⟩],
        in_mermaid_block := false,
        block_index := st.block_index + 1 } := by
  simp [parseStep, h1, h2, h3]

/-- Witness for the amended C6: a closing line with arbitrary extra content
(`` ``` trailing junk ``) ends the pending block of a concrete INSIDE
state, at that line's number, returning to OUTSIDE. -/
theorem inside_close_nonopen_terminates_witness :
    parseStep 7 "``` trailing junk".data ⟨[], true, 3, ["x".data], 1⟩ =
      { blocks := [⟨1, 3, 7, "x".data, none⟩], in_mermaid_block := false,
        block_start_line := 3, block_code_lines := ["x".data], block_index := 2 } := by
  have h := inside_close_nonopen_terminates 7 "``` trailing junk".data
    ⟨[], true, 3, ["x".data], 1⟩ (by decide) (by decide) (by decide)
  rw [h]
  decide

/- ===== C2 ===== -/

/-- C2: for every non-empty (after trimming) code fragment for which the
external checker runs to completion, `validate_code` returns: on exit code
zero, `valid = true` with the diagram type classified from the fragment and
no error fields; on nonzero exit code, `valid = false` with the same
classified diagram type retained and `error_line`/`error_message` derived by
`_parse_cli_error` from the captured standard-error text. -/
theorem validate_code_completed_outcomes (code : PyStr) (ec : Int)
    (stdoutText stderrText : PyStr) (timeout : Nat)
    (h : ¬(code = [] ∨ pyStrip code = [])) :
    (ec = 0 →
      validate_code code timeout (.completed (some ec) stdoutText stderrText) =
        .ok ⟨true, detect_diagram_type code, none, none⟩) ∧
    (ec ≠ 0 →
      validate_code code timeout (.completed (some ec) stdoutText stderrText) =
        .ok ⟨false, detect_diagram_type code, (parse_cli_error stderrText).1,
             some (parse_cli_error stderrText).2⟩) := by
  constructor
  · intro he
    subst he
    simp [validate_code, run_mmdc, h]
  · intro he
    simp [validate_code, run_mmdc, h, he]

/-- Witness for C2: a zero-exit run on `graph TD` is valid with type
`flowchart`; a nonzero-exit run with the diagnostic
`Parse error on line 3: bad token` is invalid with that type retained,
`error_line = 3` and the first diagnostic line as the message. -/
theorem validate_code_completed_outcomes_witness :
    detect_diagram_type "graph TD".data = some "flowchart".data ∧
    validate_code "graph TD".data 30 (.completed (some 0) [] []) =
      .ok ⟨true, detect_diagram_type "graph TD".data, none, none⟩ ∧
    validate_code "graph TD".data 30
        (.completed (some 2) [] "Parse error on line 3: bad token".data) =
      .ok ⟨false, detect_diagram_type "graph TD".data,
           (parse_cli_error "Parse error on line 3: bad token".data).1,
           some (parse_cli_error "Parse error on line 3: bad token".data).2⟩ ∧
    (parse_cli_error "Parse error on line 3: bad token".data).1 = some 3 :=
  ⟨by decide,
   (validate_code_completed_outcomes "graph TD".data 0 [] [] 30 (by decide)).1 rfl,
   (validate_code_completed_outcomes "graph TD".data 2 []
      "Parse error on line 3: bad token".data 30 (by decide)).2 (by decide),
   by decide⟩

/- ===== C3 ===== -/

/-- C3: for every non-empty code fragment, both abnormal branches of
`validate_code` discard the diagram type detected in step 1: on timeout the
child process is killed and then waited for (visible in the `_run_mmdc`
event trace) and the result is `valid = false`, `diagram_type = none`, with
a message embedding the configured timeout value; when the tool binary does
not exist the result is `valid = false`, `diagram_type = none`, with the
fixed installation-hint message. -/
theorem validate_code_abnormal_discards_type (code : PyStr) (timeout : Nat)
    (h : ¬(code = [] ∨ pyStrip code = [])) :
    validate_code code timeout .timedOut =
      .ok ⟨false, none, none, some (timeoutMessage timeout)⟩ ∧
    (run_mmdc .timedOut).1 = [.spawned, .killed, .waited] ∧
    timeoutMessage timeout =
      "Validation timed out after ".data ++ natChars timeout ++ "s".data ∧
    validate_code code timeout .notFound =
      .ok ⟨false, none, none, some ERROR_CLI_NOT_FOUND⟩ ∧
    (run_mmdc .notFound).1 = [] := by
  refine ⟨?_, rfl, rfl, ?_, rfl⟩ <;> simp [validate_code, run_mmdc, h]

/-- Witness for C3: on `flowchart TD` (whose detected type is `flowchart`,
not `none`) the timeout branch reports no type and the 30-second message,
and the missing-binary branch reports no type and the installation hint. -/
theorem validate_code_abnormal_discards_type_witness :
    detect_diagram_type "flowchart TD".data = some "flowchart".data ∧
    validate_code "flowchart TD".data 30 .timedOut =
      .ok ⟨false, none, none, some (timeoutMessage 30)⟩ ∧
    timeoutMessage 30 = "Validation timed out after 30s".data ∧
    validate_code "flowchart TD".data 30 .notFound =
      .ok ⟨false, none, none, some ERROR_CLI_NOT_FOUND⟩ :=
  ⟨by decide,
   (validate_code_abnormal_discards_type "flowchart TD".data 30 (by decide)).1,
   by decide,
   (validate_code_abnormal_discards_type "flowchart TD".data 30 (by decide)).2.2.2.1⟩

/- ===== C4 ===== -/

/-- C4: for every input that is `None`, empty, or whitespace-only after
trimming, `validate_code` fails immediately with the raised
`"Code is required"` precondition violation (a `ValueError`, not a returned
`ValidationResult`), and the single-snippet check of such input returns
exactly the string `"Error: Code is required"`. -/
theorem empty_code_precondition (code : PyStr) (timeout : Nat)
    (tool : ToolBehavior) (h : pyStrip code = []) :
    validate_code code timeout tool = .raised ERROR_CODE_REQUIRED ∧
    ERROR_CODE_REQUIRED = "Code is required".data ∧
    check_mermaid_code (some code) tool = "Error: Code is required".data ∧
    check_mermaid_code none tool = "Error: Code is required".data := by
  refine ⟨?_, rfl, ?_, rfl⟩
  · simp [validate_code, h]
  · simp [check_mermaid_code, h, CONST_ERROR_CODE_REQUIRED]

/-- Witness for C4 at the whitespace-only input consisting of one space. -/
theorem empty_code_precondition_witness :
    validate_code " ".data 30 .notFound = .raised ERROR_CODE_REQUIRED ∧
    check_mermaid_code (some " ".data) .notFound = "Error: Code is required".data ∧
    check_mermaid_code none .notFound = "Error: Code is required".data :=
  ⟨(empty_code_precondition " ".data 30 .notFound (by decide)).1,
   (empty_code_precondition " ".data 30 .notFound (by decide)).2.2.1,
   (empty_code_precondition " ".data 30 .notFound (by decide)).2.2.2⟩

/- ===== C5 ===== -/

theorem strip_ne_cases {c : PyStr} (h : pyStrip c ≠ []) :
    ¬(c = [] ∨ pyStrip c = []) := by
  rintro (rfl | h2)
  · exact h rfl
  · exact h h2

/-- C5: each of the three public entry points is a total function into
strings, and every error of the taxonomy is recovered locally and rendered
as one of the fixed report strings: `DocumentNotFound` and
`DocumentUnreadable` for the whole-file check and the block listing,
`EmptyInput` (both the `None`/blank argument and the raised `ValueError`),
`ToolNotFound`, `ValidationTimeout` (at the default 30-second timeout the
snippet check uses), `SyntaxInvalid` (nonzero exit, parsed diagnostics) and
`ToolExecutionFault` (nonzero exit, blank diagnostics — `_parse_cli_error`
then yields the generic message).  No exception or fault value reaches the
caller: each branch is a returned string. -/
theorem entry_points_fixed_error_reports :
    (∀ (path : PyStr) (tool : PyStr → ToolBehavior),
      check_mermaid_file path .notFound tool = "Error: File not found: ".data ++ path) ∧
    (∀ (path e : PyStr) (tool : PyStr → ToolBehavior),
      check_mermaid_file path (.unreadable e) tool =
        "Error: Failed to read file: ".data ++ e) ∧
    (∀ (path : PyStr),
      list_mermaid_blocks path .notFound = "Error: File not found: ".data ++ path) ∧
    (∀ (path e : PyStr),
      list_mermaid_blocks path (.unreadable e) =
        "Error: Failed to read file: ".data ++ e) ∧
    (∀ (tool : ToolBehavior),
      check_mermaid_code none tool = "Error: Code is required".data) ∧
    (∀ (c : PyStr) (tool : ToolBehavior), pyStrip c = [] →
      check_mermaid_code (some c) tool = "Error: Code is required".data) ∧
    (∀ (c : PyStr), pyStrip c ≠ [] →
      check_mermaid_code (some c) .notFound =
        "Valid: false\nError: ".data ++ ERROR_CLI_NOT_FOUND) ∧
    (∀ (c : PyStr), pyStrip c ≠ [] →
      check_mermaid_code (some c) .timedOut =
        "Valid: false\nError: ".data ++ timeoutMessage DEFAULT_TIMEOUT) ∧
    (∀ (c : PyStr) (ec : Int) (outT errT : PyStr), pyStrip c ≠ [] → ec ≠ 0 →
      check_mermaid_code (some c) (.completed (some ec) outT errT) =
        match (parse_cli_error errT).1 with
        | some n => "Valid: false\nError at line ".data ++ natChars n ++ ": ".data ++
            (parse_cli_error errT).2
        | none => "Valid: false\nError: ".data ++ (parse_cli_error errT).2) ∧
    (∀ (c : PyStr) (outT errT : PyStr), pyStrip c ≠ [] →
      check_mermaid_code (some c) (.completed (some 0) outT errT) =
        "Valid: true\nDiagram type: ".data ++ pyOptRepr (detect_diagram_type c)) := by
  refine ⟨fun path tool => rfl, fun path e tool => rfl, fun path => rfl,
    fun path e => rfl, fun tool => rfl, ?_, ?_, ?_, ?_, ?_⟩
  · intro c tool h
    simp [check_mermaid_code, h, CONST_ERROR_CODE_REQUIRED]
  · intro c h
    have hc : c ≠ [] := fun hcc => h (by rw [hcc]; rfl)
    simp [check_mermaid_code, h, hc, validate_code, run_mmdc, pyOptRepr]
  · intro c h
    have hc : c ≠ [] := fun hcc => h (by rw [hcc]; rfl)
    simp [check_mermaid_code, h, hc, validate_code, run_mmdc, pyOptRepr]
  · intro c ec outT errT h hec
    have hc : c ≠ [] := fun hcc => h (by rw [hcc]; rfl)
    rcases hpe : (parse_cli_error errT).1 with _ | n <;>
      simp [check_mermaid_code, h, hc, validate_code, run_mmdc, hec, hpe, pyOptRepr]
  · intro c outT errT h
    have hc : c ≠ [] := fun hcc => h (by rw [hcc]; rfl)
    simp [check_mermaid_code, h, hc, validate_code, run_mmdc, pyOptRepr]

/-- Witness for C5: concrete renderings of the not-found report, the
empty-input report, the tool-not-found report and the timeout report. -/
theorem entry_points_fixed_error_reports_witness :
    check_mermaid_file "doc.md".data .notFound (fun _ => .notFound) =
      "Error: File not found: ".data ++ "doc.md".data ∧
    check_mermaid_code (some "  ".data) .notFound = "Error: Code is required".data ∧
    check_mermaid_code (some "pie".data) .notFound =
      "Valid: false\nError: ".data ++ ERROR_CLI_NOT_FOUND ∧
    check_mermaid_code (some "pie".data) .timedOut =
      "Valid: false\nError: ".data ++ timeoutMessage DEFAULT_TIMEOUT :=
  ⟨entry_points_fixed_error_reports.1 "doc.md".data (fun _ => .notFound),
   entry_points_fixed_error_reports.2.2.2.2.2.1 "  ".data .notFound (by decide),
   entry_points_fixed_error_reports.2.2.2.2.2.2.1 "pie".data (by decide),
   entry_points_fixed_error_reports.2.2.2.2.2.2.2.1 "pie".data (by decide)⟩

/- ===== C10 ===== -/

theorem checkBlocksLoop_counts (tool : PyStr → ToolBehavior) :
    ∀ (bs : List MermaidBlock) (v i : Nat) (det : List PyStr),
      (checkBlocksLoop tool bs v i det).1 + (checkBlocksLoop tool bs v i det).2.1 =
        v + i + bs.length := by
  intro bs
  induction bs with
  | nil => intro v i det; simp [checkBlocksLoop]
  | cons b t ih =>
    intro v i det
    simp only [checkBlocksLoop]
    rcases validate_code b.code DEFAULT_TIMEOUT (tool b.code) with msg | result
    · have := ih v (i + 1) (det ++ [emptyBlockEntry b])
      simp only [List.length_cons]
      omega
    · by_cases hv : result.valid = true
      · have := ih (v + 1) i det
        simp only [hv, if_true, List.length_cons]
        omega
      · have := ih v (i + 1) (det ++ [format_block_error b result])
        simp only [hv, Bool.false_eq_true, if_false, List.length_cons]
        omega

theorem checkBlocksLoop_det_mono (tool : PyStr → ToolBehavior) :
    ∀ (bs : List MermaidBlock) (v i : Nat) (det : List PyStr) (x : PyStr),
      x ∈ det → x ∈ (checkBlocksLoop tool bs v i det).2.2 := by
  intro bs
  induction bs with
  | nil => intro v i det x hx; simpa [checkBlocksLoop] using hx
  | cons b t ih =>
    intro v i det x hx
    simp only [checkBlocksLoop]
    rcases validate_code b.code DEFAULT_TIMEOUT (tool b.code) with msg | result
    · exact ih v (i + 1) _ x (List.mem_append_left _ hx)
    · by_cases hv : result.valid = true
      · simp only [hv, if_true]
        exact ih (v + 1) i det x hx
      · simp only [hv, Bool.false_eq_true, if_false]
        exact ih v (i + 1) _ x (List.mem_append_left _ hx)

theorem validate_code_raises_of_blank (c : PyStr) (timeout : Nat)
    (tool : ToolBehavior) (h : pyStrip c = []) :
    validate_code c timeout tool = .raised ERROR_CODE_REQUIRED := by
  simp [validate_code, h]

theorem checkBlocksLoop_empty_block_entry (tool : PyStr → ToolBehavior) :
    ∀ (bs : List MermaidBlock) (v i : Nat) (det : List PyStr) (b : MermaidBlock),
      b ∈ bs → pyStrip b.code = [] →
      emptyBlockEntry b ∈ (checkBlocksLoop tool bs v i det).2.2 := by
  intro bs
  induction bs with
  | nil => intro v i det b hb; cases hb
  | cons a t ih =>
    intro v i det b hb hcode
    rcases List.mem_cons.mp hb with rfl | hb
    · simp only [checkBlocksLoop,
        validate_code_raises_of_blank b.code DEFAULT_TIMEOUT (tool b.code) hcode]
      exact checkBlocksLoop_det_mono tool t v (i + 1) _ _
        (List.mem_append_right _ (List.mem_singleton.mpr rfl))
    · simp only [checkBlocksLoop]
      rcases validate_code a.code DEFAULT_TIMEOUT (tool a.code) with msg | result
      · exact ih v (i + 1) _ b hb hcode
      · by_cases hv : result.valid = true
        · simp only [hv, if_true]
          exact ih (v + 1) i det b hb hcode
        · simp only [hv, Bool.false_eq_true, if_false]
          exact ih v (i + 1) _ b hb hcode

/-- C10: in the whole-file check, a block whose code is empty or
whitespace-only does not abort the report: the raised precondition
violation is caught, the block is counted as invalid and rendered as the
entry `Error in block {index} (line {start_line}):\n  Empty mermaid block`,
and the valid and invalid counts always sum to the total block count; when
any blocks exist the returned report is the standard formatting of those
counts and entries. -/
theorem file_check_empty_block_counts (path content : PyStr)
    (tool : PyStr → ToolBehavior) :
    (checkBlocksLoop tool (extract_blocks content) 0 0 []).1 +
        (checkBlocksLoop tool (extract_blocks content) 0 0 []).2.1 =
      (extract_blocks content).length ∧
    (∀ b ∈ extract_blocks content, pyStrip b.code = [] →
      emptyBlockEntry b ∈ (checkBlocksLoop tool (extract_blocks content) 0 0 []).2.2) ∧
    (extract_blocks content ≠ [] →
      check_mermaid_file path (.ok content) tool =
        format_file_result path (extract_blocks content).length
          (checkBlocksLoop tool (extract_blocks content) 0 0 []).1
          (checkBlocksLoop tool (extract_blocks content) 0 0 []).2.1
          (checkBlocksLoop tool (extract_blocks content) 0 0 []).2.2) := by
  refine ⟨?_, ?_, ?_⟩
  · have := checkBlocksLoop_counts tool (extract_blocks content) 0 0 []
    omega
  · intro b hb hcode
    exact checkBlocksLoop_empty_block_entry tool (extract_blocks content) 0 0 [] b hb hcode
  · intro hne
    simp [check_mermaid_file, List.isEmpty_iff, hne]

/-- Witness for C10 at a document with exactly one (blank) block: the
counts are 0 valid and 1 invalid out of 1 total, and the report carries the
fixed empty-block entry for block 1 at line 1. -/
theorem file_check_empty_block_counts_witness :
    extract_blocks "```mermaid\n\n```".data ≠ [] ∧
    pyStrip ((extract_blocks "```mermaid\n\n```".data).headI).code = [] ∧
    (checkBlocksLoop (fun _ => ToolBehavior.notFound)
        (extract_blocks "```mermaid\n\n```".data) 0 0 []).1 +
      (checkBlocksLoop (fun _ => ToolBehavior.notFound)
        (extract_blocks "```mermaid\n\n```".data) 0 0 []).2.1 =
      (extract_blocks "```mermaid\n\n```".data).length ∧
    emptyBlockEntry ((extract_blocks "```mermaid\n\n```".data).headI) ∈
      (checkBlocksLoop (fun _ => ToolBehavior.notFound)
        (extract_blocks "```mermaid\n\n```".data) 0 0 []).2.2 :=
  ⟨by decide, by decide,
   (file_check_empty_block_counts "doc.md".data "```mermaid\n\n```".data
      (fun _ => ToolBehavior.notFound)).1,
   (file_check_empty_block_counts "doc.md".data "```mermaid\n\n```".data
      (fun _ => ToolBehavior.notFound)).2.1 _ (by decide) (by decide)⟩

/- ===== C8 ===== -/

/-- C8: the classifier is a pure total function: for every text it returns
the tag of the first `DIAGRAM_TYPES` entry whose keyword is a case-sensitive
prefix of the first non-empty trimmed line; text starting with `graph` and
text starting with `flowchart` both classify to `flowchart`; and with no
non-empty line, or a first non-empty line matching no entry, the result is
`none` rather than an error. -/
theorem detect_diagram_type_spec :
    (∀ code : PyStr,
      detect_diagram_type code =
        (firstContentLine (pySplitNl code)).bind
          (fun t => (DIAGRAM_TYPES.find? (fun p => pyStartsWith t p.1)).map
            (fun p => p.2))) ∧
    detect_diagram_type "graph TD\nA --> B".data = some "flowchart".data ∧
    detect_diagram_type "flowchart LR".data = some "flowchart".data ∧
    detect_diagram_type [] = none ∧
    detect_diagram_type "mystery TD".data = none := by
  refine ⟨?_, by decide, by decide, by decide, by decide⟩
  intro code
  show detectLines (pySplitNl code) = _
  generalize pySplitNl code = ls
  induction ls with
  | nil => rfl
  | cons l t ih =>
    by_cases h : pyStrip l = []
    · simpa [detectLines, firstContentLine, h] using ih
    · simp [detectLines, firstContentLine, h]

/- ===== Helper lemmas for error-text parsing (C7) ===== -/

theorem bool_false_not_true {b : Bool} (h : b = false) : ¬ b = true := by
  intro hb
  rw [hb] at h
  simp at h

theorem pyStrip_nil : pyStrip [] = [] := rfl

theorem splitNl_ne_nil (s : PyStr) : pySplitNl s ≠ [] := by
  cases s with
  | nil => simp [pySplitNl]
  | cons c cs =>
    simp only [pySplitNl]
    split <;> simp

theorem splitNl_exists_cons (s : PyStr) : ∃ g gs, pySplitNl s = g :: gs := by
  cases hx : pySplitNl s with
  | nil => exact absurd hx (splitNl_ne_nil s)
  | cons g gs => exact ⟨g, gs, rfl⟩

theorem pyStrip_cons_space {c : Char} (l : PyStr) (h : isPySpace c = true) :
    pyStrip (c :: l) = pyStrip l := by
  simp [pyStrip, pyLStrip, List.dropWhile_cons_of_pos h]

theorem pyRStrip_append_space {c : Char} (x : PyStr) (h : isPySpace c = true) :
    pyRStrip (x ++ [c]) = pyRStrip x := by
  simp [pyRStrip, List.reverse_append, List.dropWhile_cons_of_pos h]

theorem pyRStrip_append_nonspace {c : Char} (x : PyStr) (h : ¬ isPySpace c = true) :
    pyRStrip (x ++ [c]) = x ++ [c] := by
  simp [pyRStrip, List.reverse_append, List.dropWhile_cons_of_neg h]

theorem pyStrip_append_space {c : Char} (l : PyStr) (h : isPySpace c = true) :
    pyStrip (l ++ [c]) = pyStrip l := by
  unfold pyStrip pyLStrip
  rw [List.dropWhile_append]
  by_cases he : (l.dropWhile isPySpace).isEmpty
  · rw [if_pos he]
    have h1 : List.dropWhile isPySpace [c] = [] := by
      simp [List.dropWhile_cons_of_pos h]
    have h2 : l.dropWhile isPySpace = [] := by
      simpa [List.isEmpty_iff] using he
    rw [h1, h2]
  · rw [if_neg he]
    exact pyRStrip_append_space _ h

theorem splitNl_append_newline (x : PyStr) :
    pySplitNl (x ++ ['\n']) = pySplitNl x ++ [[]] := by
  induction x with
  | nil => rfl
  | cons c x ih =>
    obtain ⟨g, gs, hg⟩ := splitNl_exists_cons x
    by_cases h : c = '\n'
    · subst h
      simp [pySplitNl, ih]
    · simp [pySplitNl, h, ih, hg]

theorem splitNl_append_nonnl (x : PyStr) {c : Char} (h : c ≠ '\n') :
    pySplitNl (x ++ [c]) = mapLast (fun l => l ++ [c]) (pySplitNl x) := by
  induction x with
  | nil => simp [pySplitNl, h, mapLast]
  | cons a x ih =>
    obtain ⟨g, gs, hg⟩ := splitNl_exists_cons x
    by_cases ha : a = '\n'
    · subst ha
      rw [hg] at ih
      simp [pySplitNl, ih, hg, mapLast]
    · cases gs with
      | nil => simp [pySplitNl, ha, ih, hg, mapLast]
      | cons g2 t => simp [pySplitNl, ha, ih, hg, mapLast]

theorem mapLast_strip_map {c : Char} (h : isPySpace c = true) :
    ∀ P : List PyStr, (mapLast (fun l => l ++ [c]) P).map pyStrip = P.map pyStrip := by
  intro P
  induction P with
  | nil => rfl
  | cons a t ih =>
    cases t with
    | nil => simp [mapLast, pyStrip_append_space a h]
    | cons b u =>
      simp only [mapLast, List.map_cons]
      rw [show ((mapLast (fun l => l ++ [c]) (b :: u)).map pyStrip : List PyStr) =
        (b :: u).map pyStrip from ih]
      simp

theorem F_cons_newline (y : PyStr) :
    nonBlankTrimmedLines ('\n' :: y) = nonBlankTrimmedLines y := by
  simp [nonBlankTrimmedLines, pySplitNl, pyStrip_nil]

theorem F_cons_space {c : Char} (y : PyStr) (h : isPySpace c = true)
    (hc : c ≠ '\n') : nonBlankTrimmedLines (c :: y) = nonBlankTrimmedLines y := by
  obtain ⟨g, gs, hg⟩ := splitNl_exists_cons y
  simp [nonBlankTrimmedLines, pySplitNl, hc, hg, pyStrip_cons_space _ h]

theorem F_append_space (x : PyStr) {c : Char} (h : isPySpace c = true) :
    nonBlankTrimmedLines (x ++ [c]) = nonBlankTrimmedLines x := by
  by_cases hc : c = '\n'
  · subst hc
    unfold nonBlankTrimmedLines
    rw [splitNl_append_newline]
    simp [List.filter_append, pyStrip_nil]
  · unfold nonBlankTrimmedLines
    rw [splitNl_append_nonnl x hc, mapLast_strip_map h]

theorem F_lstrip (s : PyStr) :
    nonBlankTrimmedLines (pyLStrip s) = nonBlankTrimmedLines s := by
  induction s with
  | nil => rfl
  | cons c cs ih =>
    by_cases h : isPySpace c = true
    · rw [show pyLStrip (c :: cs) = pyLStrip cs from by simp [pyLStrip, h], ih]
      by_cases hc : c = '\n'
      · subst hc
        exact (F_cons_newline cs).symm
      · exact (F_cons_space cs h hc).symm
    · rw [show pyLStrip (c :: cs) = c :: cs from by
        simp [pyLStrip, List.dropWhile_cons_of_neg h]]

theorem F_rstrip (s : PyStr) :
    nonBlankTrimmedLines (pyRStrip s) = nonBlankTrimmedLines s := by
  induction s using List.reverseRecOn with
  | nil => rfl
  | append_singleton x c ih =>
    by_cases h : isPySpace c = true
    · rw [pyRStrip_append_space x h, ih, F_append_space x h]
    · rw [pyRStrip_append_nonspace x h]

theorem F_pyStrip (s : PyStr) :
    nonBlankTrimmedLines (pyStrip s) = nonBlankTrimmedLines s := by
  unfold pyStrip
  rw [F_rstrip, F_lstrip]

theorem dropWhile_head_false {p : Char → Bool} :
    ∀ (l : PyStr) {c : Char} {cs : PyStr}, l.dropWhile p = c :: cs → p c = false := by
  intro l
  induction l with
  | nil => intro c cs h; simp at h
  | cons a t ih =>
    intro c cs h
    by_cases ha : p a = true
    · rw [List.dropWhile_cons_of_pos ha] at h
      exact ih h
    · rw [List.dropWhile_cons_of_neg ha] at h
      injection h with h1 h2
      subst h1
      simpa using ha

theorem pyRStrip_cons_nonspace (c : Char) (cs : PyStr) (h : ¬ isPySpace c = true) :
    ∃ ds, pyRStrip (c :: cs) = c :: ds := by
  unfold pyRStrip
  rw [show (c :: cs).reverse = cs.reverse ++ [c] from by simp]
  rw [List.dropWhile_append]
  by_cases he : (cs.reverse.dropWhile isPySpace).isEmpty
  · rw [if_pos he, List.dropWhile_cons_of_neg h]
    exact ⟨[], by simp⟩
  · rw [if_neg he]
    exact ⟨(cs.reverse.dropWhile isPySpace).reverse, by simp⟩

theorem pyStrip_head_nonspace {s : PyStr} {c : Char} {cs : PyStr}
    (h : pyStrip s = c :: cs) : isPySpace c = false := by
  cases hu : pyLStrip s with
  | nil =>
    rw [pyStrip, hu] at h
    simp [pyRStrip] at h
  | cons a as =>
    have ha : isPySpace a = false := dropWhile_head_false s hu
    obtain ⟨ds, hds⟩ := pyRStrip_cons_nonspace a as (bool_false_not_true ha)
    rw [pyStrip, hu, hds] at h
    injection h with h1 h2
    subst h1
    exact ha

theorem F_cons_nonspace {c : Char} (cs : PyStr) (h : isPySpace c = false) :
    ∃ l t, nonBlankTrimmedLines (c :: cs) = l :: t ∧ l ≠ [] := by
  have hc : c ≠ '\n' := by
    intro e
    subst e
    simp [isPySpace] at h
  obtain ⟨g, gs, hg⟩ := splitNl_exists_cons cs
  have hsp : pySplitNl (c :: cs) = (c :: g) :: gs := by
    simp [pySplitNl, hc, hg]
  have hl : pyLStrip (c :: g) = c :: g := by
    simp [pyLStrip, List.dropWhile_cons_of_neg (bool_false_not_true h)]
  obtain ⟨ds, hds⟩ := pyRStrip_cons_nonspace c g (bool_false_not_true h)
  have hstrip : pyStrip (c :: g) = c :: ds := by
    rw [pyStrip, hl, hds]
  refine ⟨c :: ds, (gs.map pyStrip).filter (fun l => !l.isEmpty), ?_, by simp⟩
  unfold nonBlankTrimmedLines
  rw [hsp]
  simp [hstrip, List.filter_cons]

/- ===== C7 ===== -/

/-- C7: for every captured diagnostic text, `_parse_cli_error` yields:
`error_line` equal to the first decimal number following a case-insensitive
`line` token (the leftmost match of `line\s+(\d+)`) when such a match
exists and absent otherwise; and `error_message` equal to the first
non-blank trimmed line of the diagnostic text, or the fixed generic message
`Validation failed` when the diagnostic text is entirely blank. -/
theorem parse_cli_error_spec (stderrText : PyStr) :
    (parse_cli_error stderrText).1 = searchLineNum stderrText ∧
    (parse_cli_error stderrText).2 =
      (match nonBlankTrimmedLines stderrText with
       | l :: _ => l
       | [] => ERROR_VALIDATION_FAILED) ∧
    parse_cli_error "Parse error on line 3: bad token".data =
      (some 3, "Parse error on line 3: bad token".data) ∧
    parse_cli_error "Syntax error".data = (none, "Syntax error".data) ∧
    parse_cli_error [] = (none, ERROR_VALIDATION_FAILED) := by
  refine ⟨rfl, ?_, by decide, by decide, by decide⟩
  by_cases h : pyStrip stderrText = []
  · have hF : nonBlankTrimmedLines stderrText = [] := by
      rw [← F_pyStrip stderrText, h]
      rfl
    simp [parse_cli_error, h, hF]
  · obtain ⟨c, cs, hcc⟩ : ∃ c cs, pyStrip stderrText = c :: cs := by
      cases hs : pyStrip stderrText with
      | nil => exact absurd hs h
      | cons c cs => exact ⟨c, cs, rfl⟩
    have hnws : isPySpace c = false := pyStrip_head_nonspace hcc
    obtain ⟨l, t, hF, hl⟩ := F_cons_nonspace cs hnws
    have hFs : nonBlankTrimmedLines stderrText = l :: t := by
      rw [← F_pyStrip stderrText, hcc, hF]
    simp [parse_cli_error, h, hcc, hF, hFs, hl]
